import Mathlib

/-!
Verification of the celestialengine computational core.

This file gives a shallow embedding, in Lean 4, of the parts of the
celestialengine TypeScript source that the specification talks about:

* the star model and proper-motion projection (`src/core/stars.ts`:
  `Star`, `getStarRaDec`, `getStarOpacity`, `calcCelestialPosition`),
* the spherical hit-testing distances of `src/renderers/Effector.tsx`
  (`normDec`, `calcDistance`, `calcDistanceLine`),
* the progressive catalog loader of `src/properties.ts`
  (`StarFetcherState`, `fetchStars`, `getRequiredStarsFiles`).

Modelling conventions:

* JavaScript numbers are modelled by `ℚ` where the source only performs
  field arithmetic and comparisons (the loader, proper motion), and by
  `ℝ` where the source uses trigonometric functions.  Floating-point
  rounding is not modelled.
* JavaScript truthiness tests on `number | null` values (`!x`, `x && _`)
  are modelled faithfully: both `null` and `0` are falsy.
* `Math.acos` applied to an argument in `[-1, 1]` agrees with
  `Real.arccos`; every `acos` argument occurring below provably lies in
  that interval, so no NaN can arise from it.  The one place where the
  source can produce a NaN is the division by a zero squared segment
  length in `calcDistanceLine` (`0/0` in JavaScript); there the result
  type is `Option ℝ` and `none` models the NaN outcome.
* The network is modelled by oracles passed to `fetchStars`: the n-th
  fetch performed by a call is answered by the oracle at index `n`, with
  `Except.error` modelling a rejected promise (fetch or parse failure).
  An `Except.error` result of `fetchStars` models the function throwing;
  the state paired with the error is the value of the local `state`
  variable at the moment of the throw, and the event trace records every
  fetch performed and every invocation of the yield callback.
-/

namespace CE

/-- A star record, as parsed from a catalog band file
(`src/core/stars.ts`, `interface Star`). -/
structure Star where
  id : ℕ
  ra : ℚ
  dec : ℚ
  parallax : ℚ
  epoch : ℚ
  pmRa : ℚ
  pmDec : ℚ
  vMag : ℚ
  r : ℚ
  g : ℚ
  b : ℚ
deriving DecidableEq

/-- Source constant `AstrometricSecondsInYear = 31557600`
(`src/core/basic.ts`): 365.25 days in seconds. -/
def AstrometricSecondsInYear : ℚ := 31557600

/-- Model of `getStarRaDec(star, clock)` (`src/core/stars.ts`): proper-motion
projection of a star to the instant `clockMillis` (the value of
`clock.getTime()`, in milliseconds since the Unix epoch). -/
def getStarRaDec (star : Star) (clockMillis : ℚ) : ℚ × ℚ :=
  let unixSec := clockMillis / 1000
  let passedYears := (unixSec - star.epoch) / AstrometricSecondsInYear
  let pm_ra := star.pmRa * passedYears / (1000 * 3600)
  let pm_dec := star.pmDec * passedYears / (1000 * 3600)
  (star.ra + pm_ra, star.dec + pm_dec)

/-- Source constant `OBS_THRES_VMAG = 5.0` (`src/core/stars.ts`). -/
def OBS_THRES_VMAG : ℚ := 5

/-- Source opacity ratio constant, `Math.sqrt(2.5118864315)`
(`src/core/stars.ts`). -/
noncomputable def unobsOpacityRatio : ℝ := Real.sqrt 2.5118864315

/-- Model of `getStarOpacity(star)` (`src/core/stars.ts`): opacity hint derived
from the star's visual magnitude.  `Math.pow` is real exponentiation. -/
noncomputable def getStarOpacity (star : Star) : ℝ :=
  if star.vMag > OBS_THRES_VMAG then
    0.5 / unobsOpacityRatio ^ (((star.vMag - OBS_THRES_VMAG : ℚ) : ℝ))
  else 1.0

/-- Model of `calcCelestialPosition(ra, dec, sphereRadius)` (`src/core/stars.ts`):
RA/Dec to Cartesian, +Y at RA 0h, +Z at the celestial north pole. -/
noncomputable def calcCelestialPosition (ra dec sphereRadius : ℝ) : ℝ × ℝ × ℝ :=
  let sin_alpha := Real.sin ra
  let cos_alpha := Real.cos ra
  let sin_delta := Real.sin dec
  let cos_delta := Real.cos dec
  (sphereRadius * cos_alpha * cos_delta,
   sphereRadius * sin_alpha * cos_delta,
   sphereRadius * sin_delta)

/-- Model of `normDec(dec)` (`src/renderers/Effector.tsx`): wrap a declination
delta into `(-2π, 2π)`. -/
noncomputable def normDec (dec : ℝ) : ℝ :=
  if dec > 2 * Real.pi then dec - 2 * Real.pi
  else if dec < -(2 * Real.pi) then dec + 2 * Real.pi
  else dec

/-- Model of `calcDistance(p0RaDec, p1RaDec)` (`src/renderers/Effector.tsx`):
squared arccosine ranking distance between two celestial points.
The `acos` argument is `sin δ₀ sin δ₁ + cos δ₀ cos δ₁ cos |α₀-α₁|`,
which always lies in `[-1, 1]`, so `Real.arccos` matches `Math.acos`. -/
noncomputable def calcDistance (p0RaDec p1RaDec : ℝ × ℝ) : ℝ :=
  (Real.arccos (Real.sin p0RaDec.2 * Real.sin p1RaDec.2 +
    Real.cos p0RaDec.2 * Real.cos p1RaDec.2 *
      Real.cos |p0RaDec.1 - p1RaDec.1|)) ^ 2

/-- Projection parameter `k` of `calcDistanceLine`
(`src/renderers/Effector.tsx`): dot-product ratio of the query point
onto the segment in (RA, wrapped Dec) delta space. -/
noncomputable def kParam (pRaDec l0RaDec l1RaDec : ℝ × ℝ) : ℝ :=
  let vl : ℝ × ℝ := (l1RaDec.1 - l0RaDec.1, normDec (l1RaDec.2 - l0RaDec.2))
  let vp : ℝ × ℝ := (pRaDec.1 - l0RaDec.1, normDec (pRaDec.2 - l0RaDec.2))
  (vl.1 * vp.1 + vl.2 * vp.2) / (vl.1 ^ 2 + vl.2 ^ 2)

/-- Model of `calcDistanceLine(pRaDec, l0RaDec, l1RaDec)`
(`src/renderers/Effector.tsx`).  When the squared segment length `ll2`
is `0`, the JavaScript source computes `k = 0/0 = NaN`, both branch
guards on `k` are then false, and the final expression is again
`0/0 = NaN`; `none` models that NaN result.  When `ll2 ≠ 0` every
quantity is an ordinary real and the branch structure is literal. -/
noncomputable def calcDistanceLine (pRaDec l0RaDec l1RaDec : ℝ × ℝ) : Option ℝ :=
  let vl : ℝ × ℝ := (l1RaDec.1 - l0RaDec.1, normDec (l1RaDec.2 - l0RaDec.2))
  let vp : ℝ × ℝ := (pRaDec.1 - l0RaDec.1, normDec (pRaDec.2 - l0RaDec.2))
  let ll2 := vl.1 ^ 2 + vl.2 ^ 2
  if ll2 = 0 then none
  else
    let k := (vl.1 * vp.1 + vl.2 * vp.2) / ll2
    if k ≤ 0 then some (calcDistance pRaDec l0RaDec)
    else if k ≥ 1 then some (calcDistance pRaDec l1RaDec)
    else some ((vl.1 * vp.2 - vl.2 * vp.1) ^ 2 / ll2)

lemma normDec_zero : normDec 0 = 0 := by
  have h := Real.pi_pos
  unfold normDec
  rw [if_neg (by nlinarith), if_neg (by nlinarith)]

lemma normDec_eq_zero_iff {x : ℝ} : normDec x = 0 ↔ x = 0 := by
  unfold normDec
  split_ifs with h1 h2
  · constructor
    · intro h; nlinarith [Real.pi_pos]
    · intro h; nlinarith [Real.pi_pos]
  · constructor
    · intro h; nlinarith [Real.pi_pos]
    · intro h; nlinarith [Real.pi_pos]
  · exact Iff.rfl

lemma calcDistance_self (p : ℝ × ℝ) : calcDistance p p = 0 := by
  unfold calcDistance
  rw [sub_self, abs_zero, Real.cos_zero]
  have h1 : Real.sin p.2 * Real.sin p.2 + Real.cos p.2 * Real.cos p.2 * 1 = 1 := by
    have := Real.sin_sq_add_cos_sq p.2
    nlinarith
  rw [h1, Real.arccos_one]
  norm_num

lemma ll2_ne_zero_of_ne {l0 l1 : ℝ × ℝ} (h : l0 ≠ l1) :
    (l1.1 - l0.1) ^ 2 + normDec (l1.2 - l0.2) ^ 2 ≠ 0 := by
  intro heq
  have h1 : l1.1 - l0.1 = 0 := by nlinarith [sq_nonneg (l1.1 - l0.1), sq_nonneg (normDec (l1.2 - l0.2))]
  have h2 : normDec (l1.2 - l0.2) = 0 := by nlinarith [sq_nonneg (l1.1 - l0.1), sq_nonneg (normDec (l1.2 - l0.2))]
  have h3 : l1.2 - l0.2 = 0 := normDec_eq_zero_iff.mp h2
  exact h (Prod.ext (by linarith) (by linarith)).symm

lemma calcDistanceLine_eq (p l0 l1 : ℝ × ℝ)
    (h : (l1.1 - l0.1) ^ 2 + normDec (l1.2 - l0.2) ^ 2 ≠ 0) :
    calcDistanceLine p l0 l1 =
      if kParam p l0 l1 ≤ 0 then some (calcDistance p l0)
      else if 1 ≤ kParam p l0 l1 then some (calcDistance p l1)
      else some (((l1.1 - l0.1) * normDec (p.2 - l0.2) -
        normDec (l1.2 - l0.2) * (p.1 - l0.1)) ^ 2 /
          ((l1.1 - l0.1) ^ 2 + normDec (l1.2 - l0.2) ^ 2)) := by
  unfold calcDistanceLine kParam
  simp only
  rw [if_neg h]

/-- C6: `getStarRaDec` returns exactly
`(ra + pmRa·years/3600000, dec + pmDec·years/3600000)` with
`years = (instant in seconds - star.epoch) / 31557600`, applying no
wraparound normalization; at an instant equal to the star's epoch it
returns the catalogued `(ra, dec)` unchanged. -/
theorem claim_C6_proper_motion (s : Star) (ms : ℚ) :
    getStarRaDec s ms =
      (s.ra + s.pmRa * ((ms / 1000 - s.epoch) / 31557600) / 3600000,
       s.dec + s.pmDec * ((ms / 1000 - s.epoch) / 31557600) / 3600000) ∧
    getStarRaDec s (s.epoch * 1000) = (s.ra, s.dec) := by
  constructor
  · unfold getStarRaDec AstrometricSecondsInYear
    simp only [Prod.mk.injEq]
    constructor <;> ring
  · unfold getStarRaDec AstrometricSecondsInYear
    simp only [Prod.mk.injEq]
    constructor <;> ring

/-- C7: `calcCelestialPosition(ra, dec, R)` equals
`(R·cos ra·cos dec, R·sin ra·cos dec, R·sin dec)`; its Euclidean norm is
`R`, `dec = 90°` maps to `(0,0,R)` and `ra = dec = 0` maps to
`(R,0,0)`. -/
theorem claim_C7_celestial_projection (ra dec R : ℝ) (hR : 0 ≤ R) :
    calcCelestialPosition ra dec R =
      (R * Real.cos ra * Real.cos dec, R * Real.sin ra * Real.cos dec,
       R * Real.sin dec) ∧
    Real.sqrt ((R * Real.cos ra * Real.cos dec) ^ 2 +
      (R * Real.sin ra * Real.cos dec) ^ 2 + (R * Real.sin dec) ^ 2) = R ∧
    calcCelestialPosition ra (Real.pi / 2) R = (0, 0, R) ∧
    calcCelestialPosition 0 0 R = (R, 0, 0) := by
  refine ⟨rfl, ?_, ?_, ?_⟩
  · have hsum : (R * Real.cos ra * Real.cos dec) ^ 2 +
        (R * Real.sin ra * Real.cos dec) ^ 2 + (R * Real.sin dec) ^ 2 = R ^ 2 := by
      have h1 := Real.sin_sq_add_cos_sq ra
      have h2 := Real.sin_sq_add_cos_sq dec
      linear_combination (R ^ 2 * Real.cos dec ^ 2) * h1 + R ^ 2 * h2
    rw [hsum, Real.sqrt_sq hR]
  · unfold calcCelestialPosition
    simp
  · unfold calcCelestialPosition
    simp

/-- C7 witness: the theorem instantiated at `ra = dec = 0`, `R = 1`. -/
theorem claim_C7_witness :
    (0 : ℝ) ≤ 1 ∧
    (calcCelestialPosition 0 0 1 =
      (1 * Real.cos 0 * Real.cos 0, 1 * Real.sin 0 * Real.cos 0,
       1 * Real.sin 0) ∧
    Real.sqrt ((1 * Real.cos 0 * Real.cos 0) ^ 2 +
      (1 * Real.sin 0 * Real.cos 0) ^ 2 + (1 * Real.sin 0) ^ 2) = 1 ∧
    calcCelestialPosition 0 (Real.pi / 2) 1 = (0, 0, 1) ∧
    calcCelestialPosition 0 0 1 = (1, 0, 0)) :=
  ⟨by norm_num, claim_C7_celestial_projection 0 0 1 (by norm_num)⟩

/-- C9: for a degenerate zero-length segment (equal endpoints) the
segment distance is an immediate failure value, never a computed
numeric distance: in the source the squared segment length is `0`, the
projection parameter is `0/0 = NaN`, and the result is NaN (modelled
as `none`), which no retry mechanism touches. -/
theorem claim_C9_degenerate_segment (p l : ℝ × ℝ) :
    calcDistanceLine p l l = none := by
  unfold calcDistanceLine
  simp only [sub_self, normDec_zero]
  rw [if_pos (by norm_num)]

lemma kParam_self_left (l0 l1 : ℝ × ℝ) : kParam l0 l0 l1 = 0 := by
  unfold kParam
  simp [normDec_zero]

lemma kParam_self_right {l0 l1 : ℝ × ℝ}
    (h : (l1.1 - l0.1) ^ 2 + normDec (l1.2 - l0.2) ^ 2 ≠ 0) :
    kParam l1 l0 l1 = 1 := by
  unfold kParam
  simp only
  rw [show (l1.1 - l0.1) * (l1.1 - l0.1) + normDec (l1.2 - l0.2) * normDec (l1.2 - l0.2) =
    (l1.1 - l0.1) ^ 2 + normDec (l1.2 - l0.2) ^ 2 by ring]
  exact div_self h

/-- C8 (amended): for a segment with distinct endpoints, a query point
coincident with either endpoint yields distance `some 0`, and a
projection parameter `k ≤ 0` (resp. `k ≥ 1`) makes the result the point
distance to the *corresponding* endpoint — endpoint 0 for `k ≤ 0`,
endpoint 1 for `k ≥ 1` — which need not be the nearer endpoint. -/
theorem claim_C8_amended (p l0 l1 : ℝ × ℝ) (hne : l0 ≠ l1) :
    calcDistanceLine l0 l0 l1 = some 0 ∧
    calcDistanceLine l1 l0 l1 = some 0 ∧
    (kParam p l0 l1 ≤ 0 → calcDistanceLine p l0 l1 = some (calcDistance p l0)) ∧
    (1 ≤ kParam p l0 l1 → calcDistanceLine p l0 l1 = some (calcDistance p l1)) := by
  have hll2 := ll2_ne_zero_of_ne hne
  refine ⟨?_, ?_, ?_, ?_⟩
  · rw [calcDistanceLine_eq _ _ _ hll2, if_pos (le_of_eq (kParam_self_left l0 l1)),
      calcDistance_self]
  · rw [calcDistanceLine_eq _ _ _ hll2, kParam_self_right hll2,
      if_neg (by norm_num), if_pos le_rfl, calcDistance_self]
  · intro hk
    rw [calcDistanceLine_eq _ _ _ hll2, if_pos hk]
  · intro hk
    rw [calcDistanceLine_eq _ _ _ hll2, if_neg (by linarith), if_pos hk]

/-- C8 witness: the amended theorem instantiated at the segment from
`(0,0)` to `(π/2, 0)` and query point `(0,0)`. -/
theorem claim_C8_witness :
    ((0 : ℝ), (0 : ℝ)) ≠ ((Real.pi / 2 : ℝ), (0 : ℝ)) ∧
    (calcDistanceLine (0, 0) (0, 0) (Real.pi / 2, 0) = some 0 ∧
     calcDistanceLine (Real.pi / 2, 0) (0, 0) (Real.pi / 2, 0) = some 0 ∧
     (kParam (0, 0) (0, 0) (Real.pi / 2, 0) ≤ 0 →
       calcDistanceLine (0, 0) (0, 0) (Real.pi / 2, 0) =
         some (calcDistance (0, 0) (0, 0))) ∧
     (1 ≤ kParam (0, 0) (0, 0) (Real.pi / 2, 0) →
       calcDistanceLine (0, 0) (0, 0) (Real.pi / 2, 0) =
         some (calcDistance (0, 0) (Real.pi / 2, 0)))) :=
  have hne : ((0 : ℝ), (0 : ℝ)) ≠ ((Real.pi / 2 : ℝ), (0 : ℝ)) := by
    intro h
    have := congrArg Prod.fst h
    simp only at this
    exact Real.pi_ne_zero (by linarith)
  ⟨hne, claim_C8_amended (0, 0) (0, 0) (Real.pi / 2, 0) hne⟩

lemma cos_five_pi_div_three : Real.cos (5 * Real.pi / 3) = 1 / 2 := by
  have h : 5 * Real.pi / 3 = 2 * Real.pi - Real.pi / 3 := by ring
  rw [h, Real.cos_sub, Real.cos_two_pi, Real.sin_two_pi]
  simp [Real.cos_pi_div_three]

lemma arccos_cos_five_pi_div_three :
    Real.arccos (Real.cos (5 * Real.pi / 3)) = Real.pi / 3 := by
  rw [cos_five_pi_div_three, ← Real.cos_pi_div_three,
    Real.arccos_cos (by positivity) (by linarith [Real.pi_pos])]

lemma arccos_cos_seven_pi_div_six :
    Real.arccos (Real.cos (7 * Real.pi / 6)) = 5 * Real.pi / 6 := by
  have h : Real.cos (7 * Real.pi / 6) = Real.cos (5 * Real.pi / 6) := by
    have h1 : 7 * Real.pi / 6 = 2 * Real.pi - 5 * Real.pi / 6 := by ring
    rw [h1, Real.cos_sub, Real.cos_two_pi, Real.sin_two_pi]
    ring
  rw [h, Real.arccos_cos (by positivity) (by linarith [Real.pi_pos])]

/-- C8 counterexample: for the segment from `(0,0)` to `(π/2,0)` and the
query point `(5π/3, 0)`, the projection parameter satisfies `k ≥ 1` and
`calcDistanceLine` returns the point distance to endpoint 1, yet
endpoint 0 is strictly nearer by `calcDistance` — refuting "the result
equals the point distance to the nearer of the two endpoints". -/
theorem claim_C8_counterexample :
    (1 : ℝ) ≤ kParam (5 * Real.pi / 3, 0) (0, 0) (Real.pi / 2, 0) ∧
    calcDistanceLine (5 * Real.pi / 3, 0) (0, 0) (Real.pi / 2, 0) =
      some (calcDistance (5 * Real.pi / 3, 0) (Real.pi / 2, 0)) ∧
    calcDistance (5 * Real.pi / 3, 0) (0, 0) <
      calcDistance (5 * Real.pi / 3, 0) (Real.pi / 2, 0) ∧
    calcDistanceLine (5 * Real.pi / 3, 0) (0, 0) (Real.pi / 2, 0) ≠
      some (calcDistance (5 * Real.pi / 3, 0) (0, 0)) := by
  have hpi := Real.pi_pos
  have hne2 : Real.pi / 2 ≠ 0 := by positivity
  have hll2 : ((Real.pi / 2, (0 : ℝ)).1 - ((0 : ℝ), (0 : ℝ)).1) ^ 2 +
      normDec ((Real.pi / 2, (0 : ℝ)).2 - ((0 : ℝ), (0 : ℝ)).2) ^ 2 ≠ 0 := by
    simp only [sub_zero, normDec_zero]
    positivity
  have hk : kParam (5 * Real.pi / 3, 0) (0, 0) (Real.pi / 2, 0) = 10 / 3 := by
    unfold kParam
    simp only [sub_zero, normDec_zero]
    rw [show Real.pi / 2 * (5 * Real.pi / 3) + 0 * 0 = 5 * Real.pi ^ 2 / 6 by ring,
      show (Real.pi / 2) ^ 2 + 0 ^ 2 = Real.pi ^ 2 / 4 by ring]
    rw [div_eq_div_iff (by positivity) (by positivity)]
    ring
  have hd0 : calcDistance (5 * Real.pi / 3, 0) (0, 0) = (Real.pi / 3) ^ 2 := by
    unfold calcDistance
    simp only [Real.sin_zero, Real.cos_zero, mul_zero, zero_mul, zero_add, one_mul,
      mul_one, sub_zero]
    rw [abs_of_nonneg (by positivity), arccos_cos_five_pi_div_three]
  have hd1 : calcDistance (5 * Real.pi / 3, 0) (Real.pi / 2, 0) = (5 * Real.pi / 6) ^ 2 := by
    unfold calcDistance
    simp only [Real.sin_zero, Real.cos_zero, mul_zero, zero_mul, zero_add, one_mul,
      mul_one]
    rw [show (5 * Real.pi / 3 - Real.pi / 2) = 7 * Real.pi / 6 by ring,
      abs_of_nonneg (by positivity), arccos_cos_seven_pi_div_six]
  have hk1 : (1 : ℝ) ≤ kParam (5 * Real.pi / 3, 0) (0, 0) (Real.pi / 2, 0) := by
    rw [hk]; norm_num
  have hres : calcDistanceLine (5 * Real.pi / 3, 0) (0, 0) (Real.pi / 2, 0) =
      some (calcDistance (5 * Real.pi / 3, 0) (Real.pi / 2, 0)) := by
    rw [calcDistanceLine_eq _ _ _ hll2, if_neg (by rw [hk]; norm_num), if_pos hk1]
  have hlt : calcDistance (5 * Real.pi / 3, 0) (0, 0) <
      calcDistance (5 * Real.pi / 3, 0) (Real.pi / 2, 0) := by
    rw [hd0, hd1]
    nlinarith
  exact ⟨hk1, hres, hlt, by
    rw [hres]
    intro hcontra
    exact absurd (Option.some.inj hcontra).symm (ne_of_lt hlt)⟩

lemma one_lt_unobsOpacityRatio : 1 < unobsOpacityRatio := by
  unfold unobsOpacityRatio
  rw [show (1 : ℝ) = Real.sqrt 1 by simp]
  exact Real.sqrt_lt_sqrt (by norm_num) (by norm_num)

lemma getStarOpacity_le_half {s : Star} (h : OBS_THRES_VMAG < s.vMag) :
    getStarOpacity s ≤ 0.5 := by
  unfold getStarOpacity
  rw [if_pos h]
  have hexp : (0 : ℝ) ≤ ((s.vMag - OBS_THRES_VMAG : ℚ) : ℝ) := by
    have : (0 : ℚ) ≤ s.vMag - OBS_THRES_VMAG := by linarith
    exact_mod_cast this
  have hpow : (1 : ℝ) ≤ unobsOpacityRatio ^ ((s.vMag - OBS_THRES_VMAG : ℚ) : ℝ) :=
    Real.one_le_rpow (le_of_lt one_lt_unobsOpacityRatio) hexp
  calc (0.5 : ℝ) / unobsOpacityRatio ^ ((s.vMag - OBS_THRES_VMAG : ℚ) : ℝ)
      ≤ 0.5 / 1 := by
        apply div_le_div_of_nonneg_left (by norm_num) (by norm_num) hpow
    _ = 0.5 := by norm_num

/-- C10: above the 5.0 magnitude threshold, `getStarOpacity` equals
`0.5 / ratio^(vMag - 5)`, is at most `0.5`, and is strictly decreasing
in `vMag`; no star opacity lies in the open interval `(0.5, 1)` — the
value drops from `1` to at most `0.5` as `vMag` crosses `5`. -/
theorem claim_C10_opacity (s1 s2 : Star) (h1 : OBS_THRES_VMAG < s1.vMag)
    (h2 : s1.vMag < s2.vMag) :
    getStarOpacity s1 =
      0.5 / unobsOpacityRatio ^ ((s1.vMag - OBS_THRES_VMAG : ℚ) : ℝ) ∧
    getStarOpacity s1 ≤ 0.5 ∧
    getStarOpacity s2 < getStarOpacity s1 ∧
    (∀ s : Star, getStarOpacity s ≤ 0.5 ∨ getStarOpacity s = 1) := by
  refine ⟨?_, getStarOpacity_le_half h1, ?_, ?_⟩
  · unfold getStarOpacity
    rw [if_pos h1]
  · unfold getStarOpacity
    rw [if_pos h1, if_pos (lt_trans h1 h2)]
    have hlt : unobsOpacityRatio ^ ((s1.vMag - OBS_THRES_VMAG : ℚ) : ℝ) <
        unobsOpacityRatio ^ ((s2.vMag - OBS_THRES_VMAG : ℚ) : ℝ) := by
      apply (Real.rpow_lt_rpow_left_iff one_lt_unobsOpacityRatio).mpr
      have : (s1.vMag - OBS_THRES_VMAG : ℚ) < s2.vMag - OBS_THRES_VMAG := by linarith
      exact_mod_cast this
    have hpos1 : (0 : ℝ) < unobsOpacityRatio ^ ((s1.vMag - OBS_THRES_VMAG : ℚ) : ℝ) :=
      Real.rpow_pos_of_pos (by linarith [one_lt_unobsOpacityRatio]) _
    exact div_lt_div_of_pos_left (by norm_num) hpos1 hlt
  · intro s
    by_cases hs : OBS_THRES_VMAG < s.vMag
    · exact Or.inl (getStarOpacity_le_half hs)
    · refine Or.inr ?_
      unfold getStarOpacity
      rw [if_neg hs]
      norm_num

/-- Concrete star of magnitude 6, used for the C10 witness. -/
def c10star1 : Star := ⟨1, 0, 0, 0, 0, 0, 0, 6, 1, 1, 1⟩

/-- Concrete star of magnitude 7, used for the C10 witness. -/
def c10star2 : Star := ⟨2, 0, 0, 0, 0, 0, 0, 7, 1, 1, 1⟩

/-- C10 witness: the theorem instantiated at stars of magnitude 6 and 7. -/
theorem claim_C10_witness :
    OBS_THRES_VMAG < c10star1.vMag ∧ c10star1.vMag < c10star2.vMag ∧
    (getStarOpacity c10star1 =
      0.5 / unobsOpacityRatio ^ ((c10star1.vMag - OBS_THRES_VMAG : ℚ) : ℝ) ∧
    getStarOpacity c10star1 ≤ 0.5 ∧
    getStarOpacity c10star2 < getStarOpacity c10star1 ∧
    (∀ s : Star, getStarOpacity s ≤ 0.5 ∨ getStarOpacity s = 1)) :=
  ⟨by decide, by decide, claim_C10_opacity c10star1 c10star2 (by decide) (by decide)⟩

/-! ## Progressive catalog loader (`src/properties.ts`) -/

/-- Catalog metadata (`src/core/stars.ts`, `interface StarMetadata`):
each entry of `files` is `(lowerVmag, upperVmag, relativeFilePath)`. -/
structure StarMetadata where
  source : String
  vRange : ℚ × ℚ
  files : List (ℚ × ℚ × String)
  epoch : ℚ
deriving DecidableEq

/-- The raw metadata document as fetched
(`src/properties.ts`, `interface RawStarMetadata`). -/
structure RawMeta where
  v_map_range : ℚ × ℚ
  files : List (ℚ × ℚ × String)
  pm_epoch : ℚ
deriving DecidableEq

/-- Model of `parseMetadata(obj, source)` (`src/properties.ts`): the stored
`source` is always the URL the document was fetched from. -/
def parseMetadata (obj : RawMeta) (source : String) : StarMetadata :=
  { source := source, vRange := obj.v_map_range, files := obj.files,
    epoch := obj.pm_epoch }

/-- A star dictionary keyed by star identifier
(`src/core/stars.ts`, `type StarDict`). -/
def StarDict : Type := ℕ → Option Star

/-- The JavaScript object spread `{ ...old, ...fresh }`: keys of `fresh`
win on collision. -/
def jsMerge (old fresh : StarDict) : StarDict := fun k =>
  match fresh k with
  | some s => some s
  | none => old k

/-- The loader step (`src/properties.ts`, `type StarFetcherStep`). -/
inductive StarFetcherStep where
  | INIT
  | OK (meta : StarMetadata)
  | FAIL (meta : Option StarMetadata) (error : String)

/-- The loader state (`src/properties.ts`, `interface StarFetcherState`). -/
structure StarFetcherState where
  step : StarFetcherStep
  stars : StarDict
  loadedVmag : Option ℚ

/-- Source constant `initialState` (`src/properties.ts`). -/
def initialState : StarFetcherState :=
  { step := .INIT, stars := fun _ => none, loadedVmag := none }

/-- The filter predicate of `getRequiredStarsFiles`
(`src/properties.ts`):
`requiredVmag >= lower && (!loadedVmag || higher >= loadedVmag)`.
JavaScript truthiness: `!loadedVmag` is `true` both for `null` and for
`0`, so a zero `loadedVmag` disables the skip clause. -/
def bandKeep (loadedVmag : Option ℚ) (requiredVmag : ℚ)
    (e : ℚ × ℚ × String) : Bool :=
  decide (requiredVmag ≥ e.1) &&
    (match loadedVmag with
     | none => true
     | some q => decide (q = 0) || decide (e.2.1 ≥ q))

/-- Model of `getRequiredStarsFiles(metadata, loadedVmag, requiredVmag)`
(`src/properties.ts`): filter the bands, sort ascending by upper bound
(`.sort((a, b) => a[1] - b[1])`, a stable sort, modelled by insertion
sort), and map each band to `(satisfyingVmag, file)`. -/
def getRequiredStarsFiles (metadata : StarMetadata) (loadedVmag : Option ℚ)
    (requiredVmag : ℚ) : List (ℚ × String) :=
  (List.insertionSort (fun a b : ℚ × ℚ × String => a.2.1 ≤ b.2.1)
      (metadata.files.filter (bandKeep loadedVmag requiredVmag))).map
    (fun e => (e.2.1, e.2.2))

/-- The guard `state.loadedVmag && state.loadedVmag > vmag`
(`src/properties.ts`): JavaScript truthiness makes both `null` and `0`
fail the first conjunct. -/
def alreadyResolved (loadedVmag : Option ℚ) (vmag : ℚ) : Bool :=
  match loadedVmag with
  | none => false
  | some q => decide (q ≠ 0) && decide (q > vmag)

/-- The guard `state.step.value == "OK" && state.step.meta.source !==
metadataSource` (`src/properties.ts`). -/
def needsReset (step : StarFetcherStep) (metadataSource : String) : Bool :=
  match step with
  | .OK m => decide (m.source ≠ metadataSource)
  | _ => false

/-- The source-change reset at the top of the `fetchStars` loop body
(`src/properties.ts`): `state = { ...initialState }` when the state is
`OK` but bound to a different source. -/
def resetState (state : StarFetcherState) (metadataSource : String) :
    StarFetcherState :=
  if needsReset state.step metadataSource then initialState else state

/-- Observable events of a `fetchStars` run: each fetch performed (with
its outcome) and each invocation of the yield callback. -/
inductive FetchEvent where
  | meta (source : String) (result : Except String RawMeta)
  | band (file : String) (result : Except String StarDict)
  | yield (s : StarFetcherState)

/-- Oracle answering the metadata fetches (`fetchMetadata` without its
final `parseMetadata` step): argument `n` is the index of the fetch
within the `fetchStars` call, so that distinct attempts may behave
differently. `Except.error` models a rejected fetch or a parse error. -/
def FetchMetaOracle : Type := ℕ → String → Except String RawMeta

/-- Oracle answering the band-file fetches (`fetchStar`): same indexing
convention as `FetchMetaOracle`. -/
def FetchStarOracle : Type := ℕ → StarMetadata → String → Except String StarDict

/-- Result of a `fetchStars` run: the returned state (`Except.ok`) or
the thrown error together with the value of the local `state` variable
at the moment of the throw (`Except.error`), plus the event trace. -/
def FetchResult : Type :=
  Except (String × StarFetcherState) StarFetcherState × List FetchEvent

/-- The loader state carried inside a `fetchStars` outcome: the
returned state on normal completion, or the value of the local `state`
variable at the moment of the throw. -/
def resultState :
    Except (String × StarFetcherState) StarFetcherState → StarFetcherState
  | .ok s => s
  | .error (_, s) => s

/-- The `for (const entry of entries)` loop in the `"OK"` case of
`fetchStars` (`src/properties.ts`): fetch each band file, merge the
returned dictionary into the catalog, advance `loadedVmag` to the
band's upper bound, and yield after every merge.  `Sum.inl` is normal
completion, `Sum.inr` is a thrown error together with the state at the
moment of the throw. -/
def bandLoop (fsO : FetchStarOracle) (meta : StarMetadata) :
    List (ℚ × String) → StarFetcherState → ℕ →
    (StarFetcherState ⊕ String × StarFetcherState) × ℕ × List FetchEvent
  | [], state, n => (.inl state, n, [])
  | entry :: rest, state, n =>
    match fsO n meta entry.2 with
    | .error e => (.inr (e, state), n + 1, [.band entry.2 (.error e)])
    | .ok dict =>
      let state1 : StarFetcherState :=
        { state with loadedVmag := some entry.1,
                     stars := jsMerge state.stars dict }
      let rest1 := bandLoop fsO meta rest state1 (n + 1)
      (rest1.1, rest1.2.1, .band entry.2 (.ok dict) :: .yield state1 :: rest1.2.2)

/-- The `while (true)` loop of `fetchStars` (`src/properties.ts`).
Arguments: remaining `fuel` (the loop terminates, and the wrapper below
always supplies enough fuel), the mutable `state`, the `failureCount`,
and the index `n` of the next fetch.  Each iteration mirrors the
source: apply the source-change reset, dispatch on the step, and on an
exception either re-enter the loop (`failureCount + 1`) or transition
to `FAIL` — with `meta: null`, as in the source — yield, and re-throw. -/
def fetchLoop (fm : FetchMetaOracle) (fsO : FetchStarOracle)
    (metadataSource : String) (vmag : ℚ) (retryCount : ℕ) :
    ℕ → StarFetcherState → ℕ → ℕ → FetchResult
  | 0, state, _, _ => (.error ("[model] out of fuel", state), [])
  | fuel + 1, state, failureCount, n =>
    let state0 := resetState state metadataSource
    match state0.step with
    | .INIT =>
      match fm n metadataSource with
      | .ok raw =>
        let state1 : StarFetcherState :=
          { state0 with step := .OK (parseMetadata raw metadataSource) }
        let rest := fetchLoop fm fsO metadataSource vmag retryCount fuel
          state1 failureCount (n + 1)
        (rest.1, .meta metadataSource (.ok raw) :: .yield state1 :: rest.2)
      | .error e =>
        if retryCount < failureCount + 1 then
          let state1 : StarFetcherState := { state0 with step := .FAIL none e }
          (.error (e, state1), [.meta metadataSource (.error e), .yield state1])
        else
          let rest := fetchLoop fm fsO metadataSource vmag retryCount fuel
            state0 (failureCount + 1) (n + 1)
          (rest.1, .meta metadataSource (.error e) :: rest.2)
    | .OK meta =>
      match bandLoop fsO meta
        (getRequiredStarsFiles meta state0.loadedVmag vmag) state0 n with
      | (.inl finalState, _, evs) => (.ok finalState, evs)
      | (.inr (e, pstate), n2, evs) =>
        if retryCount < failureCount + 1 then
          let state1 : StarFetcherState := { pstate with step := .FAIL none e }
          (.error (e, state1), evs ++ [.yield state1])
        else
          let rest := fetchLoop fm fsO metadataSource vmag retryCount fuel
            pstate (failureCount + 1) n2
          (rest.1, evs ++ rest.2)
    | .FAIL _ _ => (.ok state0, [])

/-- Model of `fetchStars(state, metadataSource, vmag, yieldCallback, retryCount)`
(`src/properties.ts`).  The early-return guard is checked once, before
the loop.  The fuel `2 * retryCount + 4` always exceeds the number of
loop iterations: at most `retryCount + 1` failing iterations plus one
successful `INIT` iteration and one final dispatch. -/
def fetchStars (fm : FetchMetaOracle) (fsO : FetchStarOracle)
    (state : StarFetcherState) (metadataSource : String) (vmag : ℚ)
    (retryCount : ℕ) : FetchResult :=
  if alreadyResolved state.loadedVmag vmag then (.ok state, [])
  else fetchLoop fm fsO metadataSource vmag retryCount
    (2 * retryCount + 4) state 0 0

/-- Classifier: is this event a fetch (metadata or band)? -/
def FetchEvent.isFetch : FetchEvent → Bool
  | .meta _ _ => true
  | .band _ _ => true
  | .yield _ => false

/-- The error payload of a failed fetch event, if any. -/
def FetchEvent.errOf : FetchEvent → Option String
  | .meta _ (.error e) => some e
  | .band _ (.error e) => some e
  | _ => none

/-- The error of the most recent failed fetch in a trace. -/
def lastFetchError (trace : List FetchEvent) : Option String :=
  trace.reverse.findSome? FetchEvent.errOf

/-- Trace `failTrace ev n c`, that is `[ev n, ev (n+1), …, ev (n+c-1)]`, of
`c` consecutive failing fetch attempts starting at attempt index `n`. -/
def failTrace (ev : ℕ → FetchEvent) : ℕ → ℕ → List FetchEvent
  | _, 0 => []
  | n, c + 1 => ev n :: failTrace ev (n + 1) c

lemma failTrace_length (ev : ℕ → FetchEvent) :
    ∀ c n, (failTrace ev n c).length = c := by
  intro c
  induction c with
  | zero => intro n; rfl
  | succ c ih => intro n; simp [failTrace, ih]

lemma failTrace_mem (ev : ℕ → FetchEvent) :
    ∀ c n x, x ∈ failTrace ev n c → ∃ i, i < c ∧ x = ev (n + i) := by
  intro c
  induction c with
  | zero => intro n x hx; cases hx
  | succ c ih =>
    intro n x hx
    rw [show failTrace ev n (c + 1) = ev n :: failTrace ev (n + 1) c from rfl,
      List.mem_cons] at hx
    rcases hx with rfl | hx
    · exact ⟨0, Nat.succ_pos c, rfl⟩
    · obtain ⟨i, hi, hxi⟩ := ih (n + 1) x hx
      refine ⟨i + 1, by omega, ?_⟩
      rw [hxi, show n + 1 + i = n + (i + 1) from by omega]

lemma failTrace_filter (ev : ℕ → FetchEvent) (p : FetchEvent → Bool)
    (h : ∀ i, p (ev i) = true) :
    ∀ c n, (failTrace ev n c).filter p = failTrace ev n c := by
  intro c
  induction c with
  | zero => intro n; rfl
  | succ c ih => intro n; simp [failTrace, List.filter, h, ih]

lemma failTrace_snoc (ev : ℕ → FetchEvent) :
    ∀ c n, failTrace ev n (c + 1) = failTrace ev n c ++ [ev (n + c)] := by
  intro c
  induction c with
  | zero => intro n; simp [failTrace]
  | succ c ih =>
    intro n
    rw [show failTrace ev n (c + 1 + 1) = ev n :: failTrace ev (n + 1) (c + 1)
      from rfl, ih (n + 1), show n + 1 + c = n + c + 1 from by omega]
    rfl

lemma resetState_of_init {s : StarFetcherState} {src : String}
    (h : s.step = .INIT) : resetState s src = s := by
  unfold resetState
  rw [h]
  simp [needsReset]

/-- Always-failing metadata fetches: starting from any state whose
post-reset step is `INIT`, with failure count `k ≤ retryCount` and
enough fuel, the loop makes exactly `retryCount + 1 - k` further failed
metadata fetches, transitions to `FAIL none e` where `e` is the error
of the last attempt, yields that state once, and re-throws `e`. -/
lemma failLoopInit (fm : FetchMetaOracle) (fsO : FetchStarOracle)
    (src : String) (vmag : ℚ) (rc : ℕ) (em : ℕ → String → String)
    (hm : ∀ i u, fm i u = .error (em i u)) :
    ∀ fuel k n (s : StarFetcherState),
      (resetState s src).step = .INIT → k ≤ rc → rc + 1 - k ≤ fuel →
      fetchLoop fm fsO src vmag rc fuel s k n =
        (.error (em (n + (rc - k)) src,
          { resetState s src with step := .FAIL none (em (n + (rc - k)) src) }),
         failTrace (fun i => .meta src (.error (em i src))) n (rc + 1 - k) ++
           [.yield { resetState s src with
             step := .FAIL none (em (n + (rc - k)) src) }]) := by
  intro fuel
  induction fuel with
  | zero => intro k n s _ hk hf; omega
  | succ fuel ih =>
    intro k n s hstep hk hf
    simp only [fetchLoop]
    rw [hstep, hm n src]
    simp only
    split_ifs with hx
    · have hkrc : k = rc := by omega
      subst hkrc
      simp [failTrace]
    · have hk1 : k + 1 ≤ rc := by omega
      rw [ih (k + 1) (n + 1) (resetState s src)
        (by rw [resetState_of_init hstep]; exact hstep) (by omega) (by omega)]
      rw [show n + 1 + (rc - (k + 1)) = n + (rc - k) from by omega,
        resetState_of_init hstep,
        show rc + 1 - (k + 1) = rc - k from by omega,
        show rc + 1 - k = (rc - k) + 1 from by omega]
      rfl

lemma resetState_of_ok_match {s : StarFetcherState} {m : StarMetadata}
    {src : String} (h1 : s.step = .OK m) (h2 : m.source = src) :
    resetState s src = s := by
  unfold resetState
  rw [h1]
  simp [needsReset, h2]

/-- Always-failing band fetches: starting from an `OK` state bound to
the requested source whose band selection is nonempty, with failure
count `k ≤ retryCount` and enough fuel, the loop makes exactly
`retryCount + 1 - k` further failed band fetches (all for the first
selected file), transitions to `FAIL none e` where `e` is the error of
the last attempt — leaving `stars` and `loadedVmag` untouched — yields
that state once, and re-throws `e`. -/
lemma failLoopOk (fm : FetchMetaOracle) (fsO : FetchStarOracle)
    (src : String) (vmag : ℚ) (rc : ℕ)
    (es : ℕ → StarMetadata → String → String)
    (hs : ∀ i mm f, fsO i mm f = .error (es i mm f)) :
    ∀ fuel k n (s : StarFetcherState) (m : StarMetadata) (hd : ℚ × String)
      (tl : List (ℚ × String)),
      s.step = .OK m → m.source = src →
      getRequiredStarsFiles m s.loadedVmag vmag = hd :: tl →
      k ≤ rc → rc + 1 - k ≤ fuel →
      fetchLoop fm fsO src vmag rc fuel s k n =
        (.error (es (n + (rc - k)) m hd.2,
           { s with step := .FAIL none (es (n + (rc - k)) m hd.2) }),
         failTrace (fun i => .band hd.2 (.error (es i m hd.2))) n
             (rc + 1 - k) ++
           [.yield { s with step := .FAIL none (es (n + (rc - k)) m hd.2) }]) := by
  intro fuel
  induction fuel with
  | zero => intro k n s m hd tl _ _ _ hk hf; omega
  | succ fuel ih =>
    intro k n s m hd tl hstep hsrc hent hk hf
    simp only [fetchLoop]
    rw [resetState_of_ok_match hstep hsrc, hstep]
    simp only
    rw [hent]
    simp only [bandLoop]
    rw [hs n m hd.2]
    simp only
    split_ifs with hx
    · have hkrc : k = rc := by omega
      subst hkrc
      simp [failTrace]
    · have hk1 : k + 1 ≤ rc := by omega
      rw [ih (k + 1) (n + 1) s m hd tl hstep hsrc hent (by omega) (by omega)]
      rw [show n + 1 + (rc - (k + 1)) = n + (rc - k) from by omega,
        show rc + 1 - (k + 1) = rc - k from by omega,
        show rc + 1 - k = (rc - k) + 1 from by omega]
      rfl

lemma resetState_of_fail {s : StarFetcherState} {m : Option StarMetadata}
    {e : String} {src : String} (h : s.step = .FAIL m e) :
    resetState s src = s := by
  unfold resetState
  rw [h]
  simp [needsReset]

lemma failTrace_conclusions (ev : ℕ → FetchEvent) (c : ℕ)
    (s1 : StarFetcherState)
    (hfe : ∀ i, FetchEvent.isFetch (ev i) = true)
    (herr : ∀ i, FetchEvent.errOf (ev i) ≠ none) :
    ((failTrace ev 0 (c + 1) ++ [FetchEvent.yield s1]).filter
      FetchEvent.isFetch).length = c + 1 ∧
    (∀ x ∈ failTrace ev 0 (c + 1) ++ [FetchEvent.yield s1],
      FetchEvent.isFetch x = true → FetchEvent.errOf x ≠ none) ∧
    lastFetchError (failTrace ev 0 (c + 1) ++ [FetchEvent.yield s1]) =
      FetchEvent.errOf (ev c) := by
  refine ⟨?_, ?_, ?_⟩
  · rw [List.filter_append, failTrace_filter ev _ hfe]
    simp [FetchEvent.isFetch, failTrace_length]
  · intro x hx hfx
    rcases List.mem_append.mp hx with hx | hx
    · obtain ⟨i, _, rfl⟩ := failTrace_mem ev _ _ x hx
      exact herr _
    · rw [List.mem_singleton] at hx
      subst hx
      simp [FetchEvent.isFetch] at hfx
  · unfold lastFetchError
    rw [List.reverse_append]
    simp only [List.reverse_singleton, List.singleton_append,
      List.findSome?_cons]
    rw [show FetchEvent.errOf (FetchEvent.yield s1) = none from rfl]
    rw [failTrace_snoc, List.reverse_append]
    simp only [List.reverse_singleton, List.singleton_append,
      List.findSome?_cons, Nat.zero_add]
    rcases hev : FetchEvent.errOf (ev c) with _ | y
    · exact absurd hev (herr c)
    · rfl

/-- C2: with oracles that fail every fetch, a `fetchStars` call that
actually fetches (the state is not terminal, the early-return guard is
off, and an `OK` state bound to the requested source has a nonempty
band selection) performs exactly `retryCount + 1` failed fetches,
transitions to `FAIL none e` where `e` is the error of the last
attempt, and re-throws `e`; and a call on a state already in the `FAIL`
step returns it unchanged with no fetch and no callback. -/
theorem claim_C2_retry_and_terminal
    (fm : FetchMetaOracle) (fsO : FetchStarOracle)
    (em : ℕ → String → String) (es : ℕ → StarMetadata → String → String)
    (src : String) (vmag : ℚ) (rc : ℕ)
    (state sFail : StarFetcherState) (mF : Option StarMetadata) (eF : String)
    (hm : ∀ i u, fm i u = .error (em i u))
    (hs : ∀ i mm f, fsO i mm f = .error (es i mm f))
    (hres : alreadyResolved state.loadedVmag vmag = false)
    (hnf : ∀ m e, state.step ≠ .FAIL m e)
    (hne : ∀ m, state.step = .OK m → m.source = src →
      getRequiredStarsFiles m state.loadedVmag vmag ≠ [])
    (hF : sFail.step = .FAIL mF eF) :
    (∃ e s1,
      (fetchStars fm fsO state src vmag rc).1 = .error (e, s1) ∧
      s1.step = .FAIL none e ∧
      ((fetchStars fm fsO state src vmag rc).2.filter
        FetchEvent.isFetch).length = rc + 1 ∧
      (∀ ev ∈ (fetchStars fm fsO state src vmag rc).2,
        FetchEvent.isFetch ev = true → FetchEvent.errOf ev ≠ none) ∧
      lastFetchError (fetchStars fm fsO state src vmag rc).2 = some e) ∧
    fetchStars fm fsO sFail src vmag rc = (.ok sFail, []) := by
  constructor
  · have hrun : fetchStars fm fsO state src vmag rc =
        fetchLoop fm fsO src vmag rc (2 * rc + 4) state 0 0 := by
      unfold fetchStars
      rw [hres]
      rfl
    have hinit : (resetState state src).step = .INIT ∨
        ∃ m, state.step = .OK m ∧ m.source = src := by
      cases hstep : state.step with
      | INIT =>
        refine Or.inl ?_
        rw [resetState_of_init hstep]
        exact hstep
      | OK m =>
        by_cases hsm : m.source = src
        · exact Or.inr ⟨m, rfl, hsm⟩
        · refine Or.inl ?_
          have hrs : resetState state src = initialState := by
            unfold resetState
            rw [hstep]
            simp [needsReset, hsm]
          rw [hrs]
          rfl
      | FAIL mm ee => exact absurd hstep (hnf mm ee)
    rcases hinit with hstep | ⟨m, hstep, hsm⟩
    · -- metadata fetches fail forever
      rw [hrun, failLoopInit fm fsO src vmag rc em hm (2 * rc + 4) 0 0 state
        hstep (by omega) (by omega)]
      refine ⟨em (0 + (rc - 0)) src, _, rfl, rfl, ?_⟩
      have hconc := failTrace_conclusions
        (fun i => FetchEvent.meta src (.error (em i src))) rc
        { resetState state src with
          step := .FAIL none (em (0 + (rc - 0)) src) }
        (fun i => rfl) (fun i => by simp [FetchEvent.errOf])
      rw [show rc + 1 - 0 = rc + 1 from by omega]
      refine ⟨hconc.1, hconc.2.1, ?_⟩
      rw [hconc.2.2]
      simp [FetchEvent.errOf]
    · -- band fetches fail forever
      obtain ⟨hd, tl, hent⟩ :=
        List.exists_cons_of_ne_nil (hne m hstep hsm)
      rw [hrun, failLoopOk fm fsO src vmag rc es hs (2 * rc + 4) 0 0 state m
        hd tl hstep hsm hent (by omega) (by omega)]
      refine ⟨es (0 + (rc - 0)) m hd.2, _, rfl, rfl, ?_⟩
      have hconc := failTrace_conclusions
        (fun i => FetchEvent.band hd.2 (.error (es i m hd.2))) rc
        { state with step := .FAIL none (es (0 + (rc - 0)) m hd.2) }
        (fun i => rfl) (fun i => by simp [FetchEvent.errOf])
      rw [show rc + 1 - 0 = rc + 1 from by omega]
      refine ⟨hconc.1, hconc.2.1, ?_⟩
      rw [hconc.2.2]
      simp [FetchEvent.errOf]
  · unfold fetchStars
    by_cases hres2 : alreadyResolved sFail.loadedVmag vmag = true
    · rw [if_pos hres2]
    · rw [if_neg hres2]
      show fetchLoop fm fsO src vmag rc (2 * rc + 3 + 1) sFail 0 0 = _
      simp only [fetchLoop]
      rw [resetState_of_fail hF, hF]

/-- Error function of the C2 witness metadata oracle. -/
def c2em : ℕ → String → String := fun _ _ => "metaFail"

/-- Error function of the C2 witness band oracle. -/
def c2es : ℕ → StarMetadata → String → String := fun _ _ _ => "bandFail"

/-- C2 witness metadata oracle: every fetch fails. -/
def c2fm : FetchMetaOracle := fun i u => .error (c2em i u)

/-- C2 witness band oracle: every fetch fails. -/
def c2fs : FetchStarOracle := fun i mm f => .error (c2es i mm f)

/-- C2 witness terminal state. -/
def c2sFail : StarFetcherState := ⟨.FAIL none "boom", fun _ => none, none⟩

/-- C2 witness: the theorem instantiated at the initial state and the
concrete always-failing oracles, with `retryCount = 2`. -/
theorem claim_C2_witness :
    alreadyResolved initialState.loadedVmag 5 = false ∧
    c2sFail.step = .FAIL none "boom" ∧
    ((∃ e s1,
      (fetchStars c2fm c2fs initialState "s" 5 2).1 = .error (e, s1) ∧
      s1.step = .FAIL none e ∧
      ((fetchStars c2fm c2fs initialState "s" 5 2).2.filter
        FetchEvent.isFetch).length = 2 + 1 ∧
      (∀ ev ∈ (fetchStars c2fm c2fs initialState "s" 5 2).2,
        FetchEvent.isFetch ev = true → FetchEvent.errOf ev ≠ none) ∧
      lastFetchError (fetchStars c2fm c2fs initialState "s" 5 2).2 = some e) ∧
    fetchStars c2fm c2fs c2sFail "s" 5 2 = (.ok c2sFail, [])) :=
  ⟨rfl, rfl,
    claim_C2_retry_and_terminal c2fm c2fs c2em c2es "s" 5 2 initialState
      c2sFail none "boom" (fun _ _ => rfl) (fun _ _ _ => rfl) rfl
      (fun _ _ h => StarFetcherStep.noConfusion h)
      (fun _ h => StarFetcherStep.noConfusion h) rfl⟩

/-! ## C3: failure during band fetching from an `OK` state -/

/-- C3 (amended): when every band fetch fails and the call starts from
an `OK` state bound to the requested source with a nonempty band
selection, the run throws the last error `e` and the state at the
throw is the input state with *only* its step replaced by
`FAIL none e`: the `FAIL` step's metadata field is always `null` (the
source overwrites it in the catch handler), while the stars mapping and
`loadedVmag` are left unchanged (no rollback). -/
theorem claim_C3_amended (fm : FetchMetaOracle) (fsO : FetchStarOracle)
    (es : ℕ → StarMetadata → String → String) (src : String) (vmag : ℚ)
    (rc : ℕ) (state : StarFetcherState) (m : StarMetadata)
    (hd : ℚ × String) (tl : List (ℚ × String))
    (hs : ∀ i mm f, fsO i mm f = .error (es i mm f))
    (hres : alreadyResolved state.loadedVmag vmag = false)
    (hstep : state.step = .OK m) (hsm : m.source = src)
    (hent : getRequiredStarsFiles m state.loadedVmag vmag = hd :: tl) :
    fetchStars fm fsO state src vmag rc =
      (.error (es rc m hd.2,
        { state with step := .FAIL none (es rc m hd.2) }),
       failTrace (fun i => FetchEvent.band hd.2 (.error (es i m hd.2))) 0
           (rc + 1) ++
         [FetchEvent.yield
           { state with step := .FAIL none (es rc m hd.2) }]) := by
  have hrun : fetchStars fm fsO state src vmag rc =
      fetchLoop fm fsO src vmag rc (2 * rc + 4) state 0 0 := by
    unfold fetchStars
    rw [hres]
    rfl
  rw [hrun, failLoopOk fm fsO src vmag rc es hs (2 * rc + 4) 0 0 state m
    hd tl hstep hsm hent (by omega) (by omega)]
  rw [show 0 + (rc - 0) = rc from by omega,
    show rc + 1 - 0 = rc + 1 from by omega]

/-- Metadata of the C3 concrete run. -/
def c3meta : StarMetadata :=
  { source := "s", vRange := (0, 5), files := [(0, 5, "f")], epoch := 0 }

/-- A star already loaded before the C3 concrete run. -/
def c3star : Star := ⟨7, 0, 0, 0, 0, 0, 0, 3, 1, 1, 1⟩

/-- C3 input state: `OK c3meta` with one star already in the catalog. -/
def c3s0 : StarFetcherState :=
  ⟨.OK c3meta, fun k => if k = 7 then some c3star else none, none⟩

/-- C3 error function: every band fetch fails with `"boom"`. -/
def c3es : ℕ → StarMetadata → String → String := fun _ _ _ => "boom"

/-- C3 metadata oracle (never consulted in the C3 runs). -/
def c3fm : FetchMetaOracle := fun _ _ => .error ("boom")

/-- C3 band oracle: every fetch fails with `"boom"`. -/
def c3fs : FetchStarOracle := fun i mm f => .error (c3es i mm f)

/-- C3 counterexample: starting from `OK c3meta` (metadata loaded) with
an always-failing band oracle and `retryCount = 0`, the state at the
throw has step `FAIL none "boom"` — not `FAIL (some c3meta) "boom"` as
the claim requires: the source sets `meta: null` in the catch handler
even though metadata had been loaded.  Stars and `loadedVmag` are
unchanged. -/
theorem claim_C3_counterexample :
    c3s0.step = .OK c3meta ∧
    (fetchStars c3fm c3fs c3s0 "s" 4 0).1 =
      .error ("boom", { c3s0 with step := .FAIL none "boom" }) ∧
    (StarFetcherStep.FAIL none "boom" ≠
      StarFetcherStep.FAIL (some c3meta) "boom") := by
  refine ⟨rfl, rfl, ?_⟩
  intro h
  injection h with h1 h2
  exact Option.noConfusion h1

/-- C3 witness: the amended theorem instantiated at the concrete `OK`
state with `retryCount = 1`. -/
theorem claim_C3_witness :
    (∀ i mm f, c3fs i mm f = .error (c3es i mm f)) ∧
    alreadyResolved c3s0.loadedVmag 4 = false ∧
    c3s0.step = .OK c3meta ∧ c3meta.source = "s" ∧
    getRequiredStarsFiles c3meta c3s0.loadedVmag 4 = [((5 : ℚ), "f")] ∧
    fetchStars c3fm c3fs c3s0 "s" 4 1 =
      (.error (c3es 1 c3meta "f",
        { c3s0 with step := .FAIL none (c3es 1 c3meta "f") }),
       failTrace (fun i => FetchEvent.band "f" (.error (c3es i c3meta "f")))
           0 2 ++
         [FetchEvent.yield
           { c3s0 with step := .FAIL none (c3es 1 c3meta "f") }]) :=
  ⟨fun _ _ _ => rfl, rfl, rfl, rfl, by decide,
   claim_C3_amended c3fm c3fs c3es "s" 4 1 c3s0 c3meta ((5 : ℚ), "f") []
     (fun _ _ _ => rfl) rfl rfl rfl (by decide)⟩

/-! ## C5: monotone catalog growth -/

/-- The state carried in a `bandLoop` outcome. -/
def outState : StarFetcherState ⊕ String × StarFetcherState → StarFetcherState
  | .inl s => s
  | .inr (_, s) => s

lemma jsMerge_isSome {old fresh : StarDict} {k : ℕ}
    (h : (old k).isSome = true) : (jsMerge old fresh k).isSome = true := by
  unfold jsMerge
  cases hf : fresh k <;> simp [hf, h]

lemma resetState_of_matching {s : StarFetcherState} {src : String}
    (h : ∀ m, s.step = .OK m → m.source = src) : resetState s src = s := by
  cases hstep : s.step with
  | INIT => exact resetState_of_init hstep
  | OK m => exact resetState_of_ok_match hstep (h m hstep)
  | FAIL mm ee => exact resetState_of_fail hstep

lemma bandLoop_mono (fsO : FetchStarOracle) (m : StarMetadata) :
    ∀ (entries : List (ℚ × String)) (s : StarFetcherState) (n : ℕ),
      (outState (bandLoop fsO m entries s n).1).step = s.step ∧
      (∀ id, (s.stars id).isSome = true →
        ((outState (bandLoop fsO m entries s n).1).stars id).isSome = true) ∧
      (∀ sy, FetchEvent.yield sy ∈ (bandLoop fsO m entries s n).2.2 →
        sy.step = s.step ∧ ∀ id, (s.stars id).isSome = true →
          (sy.stars id).isSome = true) := by
  intro entries
  induction entries with
  | nil =>
    intro s n
    refine ⟨rfl, fun id h => h, fun sy hsy => ?_⟩
    cases hsy
  | cons e rest ih =>
    intro s n
    simp only [bandLoop]
    cases hf : fsO n m e.2 with
    | error err =>
      simp only
      refine ⟨rfl, fun id h => h, fun sy hsy => ?_⟩
      rw [List.mem_singleton] at hsy
      exact FetchEvent.noConfusion hsy
    | ok dict =>
      simp only
      obtain ⟨ih1, ih2, ih3⟩ := ih
        { s with loadedVmag := some e.1, stars := jsMerge s.stars dict } (n + 1)
      refine ⟨ih1, fun id h => ih2 id (jsMerge_isSome h), fun sy hsy => ?_⟩
      rw [List.mem_cons, List.mem_cons] at hsy
      rcases hsy with heq | heq | hsy
      · exact FetchEvent.noConfusion heq
      · injection heq with h1
        subst h1
        exact ⟨rfl, fun id h => jsMerge_isSome h⟩
      · obtain ⟨ha, hb⟩ := ih3 sy hsy
        exact ⟨ha, fun id h => hb id (jsMerge_isSome h)⟩

lemma fetchLoop_mono (fm : FetchMetaOracle) (fsO : FetchStarOracle)
    (src : String) (vmag : ℚ) (rc : ℕ) :
    ∀ (fuel : ℕ) (s : StarFetcherState) (k n : ℕ),
      (∀ m, s.step = .OK m → m.source = src) →
      ∀ id, (s.stars id).isSome = true →
        ((resultState (fetchLoop fm fsO src vmag rc fuel s k n).1).stars
          id).isSome = true ∧
        (∀ sy, FetchEvent.yield sy ∈
            (fetchLoop fm fsO src vmag rc fuel s k n).2 →
          (sy.stars id).isSome = true) := by
  intro fuel
  induction fuel with
  | zero =>
    intro s k n _ id h
    exact ⟨h, fun sy hsy => by cases hsy⟩
  | succ fuel ih =>
    intro s k n hsrc id h
    simp only [fetchLoop]
    rw [resetState_of_matching hsrc]
    cases hstep : s.step with
    | INIT =>
      simp only
      cases hmf : fm n src with
      | ok raw =>
        simp only
        have hsrc1 : ∀ mm, ({ s with step := .OK (parseMetadata raw src) }
            : StarFetcherState).step = .OK mm → mm.source = src := by
          intro mm hm
          injection hm with hm1
          rw [← hm1]
          rfl
        obtain ⟨ihr, ihy⟩ := ih { s with step := .OK (parseMetadata raw src) }
          k (n + 1) hsrc1 id h
        refine ⟨ihr, fun sy hsy => ?_⟩
        rw [List.mem_cons, List.mem_cons] at hsy
        rcases hsy with heq | heq | hsy
        · exact FetchEvent.noConfusion heq
        · injection heq with h1
          subst h1
          exact h
        · exact ihy sy hsy
      | error e =>
        simp only
        split_ifs with hx
        · refine ⟨h, fun sy hsy => ?_⟩
          rw [List.mem_cons, List.mem_singleton] at hsy
          rcases hsy with heq | heq
          · exact FetchEvent.noConfusion heq
          · injection heq with h1
            subst h1
            exact h
        · obtain ⟨ihr, ihy⟩ := ih s (k + 1) (n + 1) hsrc id h
          refine ⟨ihr, fun sy hsy => ?_⟩
          rw [List.mem_cons] at hsy
          rcases hsy with heq | hsy
          · exact FetchEvent.noConfusion heq
          · exact ihy sy hsy
    | OK m =>
      simp only
      obtain ⟨bl1, bl2, bl3⟩ := bandLoop_mono fsO m
        (getRequiredStarsFiles m s.loadedVmag vmag) s n
      rcases hbl : bandLoop fsO m (getRequiredStarsFiles m s.loadedVmag vmag)
        s n with ⟨out, n2, evs⟩
      rw [hbl] at bl1 bl2 bl3
      cases out with
      | inl fin =>
        simp only
        exact ⟨bl2 id h, fun sy hsy => (bl3 sy hsy).2 id h⟩
      | inr pr =>
        rcases pr with ⟨e, pstate⟩
        simp only
        split_ifs with hx
        · refine ⟨bl2 id h, fun sy hsy => ?_⟩
          rcases List.mem_append.mp hsy with hsy | hsy
          · exact (bl3 sy hsy).2 id h
          · rw [List.mem_singleton] at hsy
            injection hsy with h1
            subst h1
            exact bl2 id h
        · have hpsrc : ∀ mm, pstate.step = .OK mm → mm.source = src := by
            intro mm hmm
            have hps : pstate.step = s.step := bl1
            rw [hps, hstep] at hmm
            injection hmm with hmm1
            rw [← hmm1]
            exact hsrc m hstep
          obtain ⟨ihr, ihy⟩ := ih pstate (k + 1) n2 hpsrc id (bl2 id h)
          refine ⟨ihr, fun sy hsy => ?_⟩
          rcases List.mem_append.mp hsy with hsy | hsy
          · exact (bl3 sy hsy).2 id h
          · exact ihy sy hsy
    | FAIL mm ee =>
      simp only
      exact ⟨h, fun sy hsy => by cases hsy⟩

/-- C5 (amended): for every `fetchStars` call on a state not bound to a
different source (in particular when the state's metadata records the
requested source), every star identifier present in the input state's
catalog is still present in the returned (or thrown-with) state's
catalog and in every state passed to the yield callback.  The record
stored under an identifier may however be replaced by the freshly
fetched record when a band file contains the same identifier (`{
...state.stars, ...stars }` lets the new entry win); the catalog is
reset to empty only on a source change. -/
theorem claim_C5_amended (fm : FetchMetaOracle) (fsO : FetchStarOracle)
    (state : StarFetcherState) (src : String) (vmag : ℚ) (rc : ℕ)
    (hsrc : ∀ m, state.step = .OK m → m.source = src) (id : ℕ)
    (h : (state.stars id).isSome = true) :
    ((resultState (fetchStars fm fsO state src vmag rc).1).stars
      id).isSome = true ∧
    ∀ sy, FetchEvent.yield sy ∈ (fetchStars fm fsO state src vmag rc).2 →
      (sy.stars id).isSome = true := by
  unfold fetchStars
  split_ifs with hres
  · exact ⟨h, fun sy hsy => by cases hsy⟩
  · exact fetchLoop_mono fm fsO src vmag rc (2 * rc + 4) state 0 0 hsrc id h

/-- Metadata of the C5 concrete runs. -/
def c5meta : StarMetadata :=
  { source := "s", vRange := (0, 5), files := [(0, 5, "f")], epoch := 0 }

/-- The record initially stored under identifier 1 in the C5 run. -/
def c5starA : Star := ⟨1, 0, 0, 0, 0, 0, 0, 2, 1, 1, 1⟩

/-- A different record with the same identifier, returned by the C5
band oracle. -/
def c5starB : Star := ⟨1, 0, 0, 0, 0, 0, 0, 3, 1, 1, 1⟩

/-- C5 input state: `OK c5meta` with `c5starA` already in the catalog. -/
def c5s0 : StarFetcherState :=
  ⟨.OK c5meta, fun k => if k = 1 then some c5starA else none, none⟩

/-- C5 metadata oracle (never consulted). -/
def c5fm : FetchMetaOracle := fun _ _ => .error ("unused")

/-- C5 band oracle: returns a dictionary that maps identifier 1 to
`c5starB`. -/
def c5fs : FetchStarOracle :=
  fun _ _ _ => .ok (fun k => if k = 1 then some c5starB else none)

/-- C5 counterexample: a run with matching source keeps identifier 1
present but *replaces* its record — the merge `{ ...state.stars,
...stars }` lets the freshly fetched record win — refuting "present
with the same record". -/
theorem claim_C5_counterexample :
    c5s0.step = .OK c5meta ∧ c5meta.source = "s" ∧
    c5s0.stars 1 = some c5starA ∧
    (resultState (fetchStars c5fm c5fs c5s0 "s" 4 0).1).stars 1 =
      some c5starB ∧
    c5starA ≠ c5starB :=
  ⟨rfl, rfl, rfl, rfl, by decide⟩

/-- C5 witness: the amended theorem instantiated at the concrete run. -/
theorem claim_C5_witness :
    (∀ m, c5s0.step = .OK m → m.source = "s") ∧
    (c5s0.stars 1).isSome = true ∧
    (((resultState (fetchStars c5fm c5fs c5s0 "s" 4 0).1).stars
      1).isSome = true ∧
    ∀ sy, FetchEvent.yield sy ∈ (fetchStars c5fm c5fs c5s0 "s" 4 0).2 →
      (sy.stars 1).isSome = true) :=
  ⟨fun m hm => by injection hm with h1; subst h1; rfl, rfl,
   claim_C5_amended c5fm c5fs c5s0 "s" 4 0
     (fun m hm => by injection hm with h1; subst h1; rfl) 1 rfl⟩

/-! ## C1: band selection -/

/-- The metadata of the specification's band-selection example:
bands `[(-1,3,"a"), (3,9,"b"), (9,15,"c")]`. -/
def c1meta : StarMetadata :=
  { source := "src", vRange := (-1, 15),
    files := [(-1, 3, "a"), (3, 9, "b"), (9, 15, "c")], epoch := 0 }

lemma getRequiredStarsFiles_sorted (m : StarMetadata) (lv : Option ℚ) (rv : ℚ) :
    ((getRequiredStarsFiles m lv rv).map Prod.fst).Sorted (· ≤ ·) := by
  unfold getRequiredStarsFiles
  have hs : (List.insertionSort (fun a b : ℚ × ℚ × String => a.2.1 ≤ b.2.1)
      (m.files.filter (bandKeep lv rv))).Sorted
        (fun a b : ℚ × ℚ × String => a.2.1 ≤ b.2.1) := by
    haveI : IsTotal (ℚ × ℚ × String) (fun a b => a.2.1 ≤ b.2.1) :=
      ⟨fun a b => le_total _ _⟩
    haveI : IsTrans (ℚ × ℚ × String) (fun a b => a.2.1 ≤ b.2.1) :=
      ⟨fun _ _ _ => le_trans⟩
    exact List.sorted_insertionSort _ _
  rw [List.map_map]
  exact List.Pairwise.map _ (fun a b h => h) hs

lemma getRequiredStarsFiles_skip {m : StarMetadata} {lv rv : ℚ} (h0 : lv ≠ 0) :
    ∀ x ∈ getRequiredStarsFiles m (some lv) rv, lv ≤ x.1 := by
  intro x hx
  unfold getRequiredStarsFiles at hx
  obtain ⟨e, he, hfe⟩ := List.mem_map.mp hx
  have he2 : e ∈ m.files.filter (bandKeep (some lv) rv) :=
    (List.perm_insertionSort _ _).mem_iff.mp he
  have hkeep : bandKeep (some lv) rv e = true := (List.mem_filter.mp he2).2
  unfold bandKeep at hkeep
  simp only [Bool.and_eq_true, Bool.or_eq_true, decide_eq_true_eq] at hkeep
  rcases hkeep.2 with h | h
  · exact absurd h h0
  · rw [← hfe]
    exact h

/-- C1 counterexample: with bands `[(-1,3,"a"),(3,9,"b"),(9,15,"c")]`,
`loadedVmag = 3` and `requiredVmag = 14`, the source returns
`[(3,"a"),(9,"b"),(15,"c")]` — band `a` is kept because the filter uses
`higher >= loadedVmag`, not a strict comparison — and not the claimed
`[(9,"b"),(15,"c")]`. -/
theorem claim_C1_counterexample :
    getRequiredStarsFiles c1meta (some 3) 14 =
      [(3, "a"), (9, "b"), (15, "c")] ∧
    getRequiredStarsFiles c1meta (some 3) 14 ≠
      ([(9, "b"), (15, "c")] : List (ℚ × String)) := by
  constructor
  · decide
  · decide

/-- C1 (amended): `getRequiredFiles(c1meta, null, 2) = [(3,"a")]`;
`getRequiredFiles(c1meta, 3, 14) = [(3,"a"),(9,"b"),(15,"c")]` (a band
whose upper bound *equals* `loadedVmag` is selected again); in general,
for a nonzero `loadedVmag`, every selected band has upper bound
`≥ loadedVmag` — only bands with upper bound strictly below a truthy
`loadedVmag` are skipped — and the selected bands are sorted ascending
by upper bound. -/
theorem claim_C1_amended (m : StarMetadata) (lv rv : ℚ) (h0 : lv ≠ 0) :
    getRequiredStarsFiles c1meta none 2 = [(3, "a")] ∧
    getRequiredStarsFiles c1meta (some 3) 14 =
      [(3, "a"), (9, "b"), (15, "c")] ∧
    (∀ x ∈ getRequiredStarsFiles m (some lv) rv, lv ≤ x.1) ∧
    (∀ (m2 : StarMetadata) (lv2 : Option ℚ) (rv2 : ℚ),
      ((getRequiredStarsFiles m2 lv2 rv2).map Prod.fst).Sorted (· ≤ ·)) :=
  ⟨by decide, by decide, getRequiredStarsFiles_skip h0,
   fun m2 lv2 rv2 => getRequiredStarsFiles_sorted m2 lv2 rv2⟩

/-- C1 witness: the amended theorem instantiated at the example
metadata with `loadedVmag = 3`, `requiredVmag = 14`. -/
theorem claim_C1_witness :
    (3 : ℚ) ≠ 0 ∧
    (getRequiredStarsFiles c1meta none 2 = [(3, "a")] ∧
    getRequiredStarsFiles c1meta (some 3) 14 =
      [(3, "a"), (9, "b"), (15, "c")] ∧
    (∀ x ∈ getRequiredStarsFiles c1meta (some 3) 14, (3 : ℚ) ≤ x.1) ∧
    (∀ (m2 : StarMetadata) (lv2 : Option ℚ) (rv2 : ℚ),
      ((getRequiredStarsFiles m2 lv2 rv2).map Prod.fst).Sorted (· ≤ ·))) :=
  ⟨by decide, claim_C1_amended c1meta 3 14 (by decide)⟩

/-! ## C4: the early-return guard -/

/-- Metadata document used by the C4 counterexample: a single band
`(-1, 5, "a")`. -/
def c4raw : RawMeta := ⟨(-1, 5), [(-1, 5, "a")], 0⟩

/-- Star returned by the C4 counterexample's band oracle. -/
def c4star : Star := ⟨1, 0, 0, 0, 0, 0, 0, 2, 1, 1, 1⟩

/-- Band dictionary returned by the C4 counterexample's band oracle. -/
def c4dict : StarDict := fun k => if k = 1 then some c4star else none

/-- Metadata oracle of the C4 counterexample: always succeeds. -/
def c4fm : FetchMetaOracle := fun _ _ => .ok c4raw

/-- Band oracle of the C4 counterexample: always succeeds. -/
def c4fs : FetchStarOracle := fun _ _ _ => .ok c4dict

/-- C4 counterexample input state: `loadedVmag = 0`, which is non-null
and strictly greater than the requested `vmag = -1`, but falsy in
JavaScript. -/
def c4s0 : StarFetcherState := ⟨.INIT, fun _ => none, some 0⟩

/-- C4 counterexample: `c4s0.loadedVmag = 0` is non-null and strictly
greater than the requested `vmag = -1`, yet `fetchStars` does not
return the state unchanged: `state.loadedVmag && ...` treats `0` as
falsy, so the call fetches metadata and a band (4 trace events: two
fetches and two yields) and returns a state with `loadedVmag = 5`. -/
theorem claim_C4_counterexample :
    c4s0.loadedVmag = some 0 ∧ (-1 : ℚ) < 0 ∧
    (resultState (fetchStars c4fm c4fs c4s0 "s" (-1) 3).1).loadedVmag =
      some 5 ∧
    (fetchStars c4fm c4fs c4s0 "s" (-1) 3).2.length = 4 := by
  refine ⟨rfl, by norm_num, rfl, rfl⟩

/-- C4 (amended): whenever `loadedVmag` is non-null, **nonzero**, and
strictly greater than the requested `vmag` — i.e. the JavaScript guard
`state.loadedVmag && state.loadedVmag > vmag` holds — `fetchStars`
returns the input state unchanged, with no fetch and no callback
invocation. -/
theorem claim_C4_amended (fm : FetchMetaOracle) (fsO : FetchStarOracle)
    (state : StarFetcherState) (metadataSource : String) (vmag : ℚ)
    (retryCount : ℕ) (h : alreadyResolved state.loadedVmag vmag = true) :
    fetchStars fm fsO state metadataSource vmag retryCount =
      (.ok state, []) := by
  unfold fetchStars
  rw [if_pos h]

/-- C4 witness input state: `loadedVmag = 5` covers `vmag = 3`. -/
def c4w : StarFetcherState := ⟨.INIT, fun _ => none, some 5⟩

/-- C4 witness: the amended theorem instantiated at a state with
`loadedVmag = 5` and a request for `vmag = 3`. -/
theorem claim_C4_witness :
    alreadyResolved c4w.loadedVmag 3 = true ∧
    fetchStars c4fm c4fs c4w "s" 3 0 = (.ok c4w, []) :=
  ⟨by decide, claim_C4_amended c4fm c4fs c4w "s" 3 0 (by decide)⟩

end CE
